import Mathlib

/-!
Shallow embedding of KdumpCrash, from
src/microsoft/testsuites/kdump/kdumpcrash.py, method _check_kdump_result.

The method polls a rebooting remote machine for a crash dump artifact.
Control flow of the source:

  timer = create_timer(); system_disconnected = True
  while system_disconnected and timer.elapsed() < timeout_of_dump_crash:
      try: try_connect(...)
      except: serial_console.check_initramfs(...); continue
      system_disconnected = False
      saved_dumpfile_size = 0; max_retries = 10; retries = 0
      while True:
          try:
              result = execute(find complete vmcore)
              if result.stdout: break
              result = execute(find incomplete file)
              if result.stdout:
                  incomplete_file_size = stat(...)
          except: system_disconnected = True; break
          if result.stdout:
              if incomplete_file_size > saved_dumpfile_size:
                  saved_dumpfile_size = incomplete_file_size; retries = 0
              else:
                  retries += 1
                  if retries >= max_retries:
                      get_console_log(); raise (incomplete, size)
          else:
              retries += 1
              if retries >= max_retries:
                  get_console_log(); raise (no vmcore found)
          if timer.elapsed() > timeout_of_dump_crash:
              get_console_log(); raise (dump timeout, size)
          sleep(5)
  if system_disconnected:
      get_console_log(); raise (connect timeout)

We model each loop iteration, of the outer reconnect loop as well as of the
inner polling loop, as consuming one Event from an input trace that records
the environment responses for that iteration: the timer reading taken in the
iteration, the result of the connect attempt, the outputs of the remote find
commands, and whether the diagnostics call made in that iteration succeeds.
The diagnostics calls (check_initramfs, get_console_log) appear in the source
outside every try block, so a failing diagnostics call propagates; the model
records that as an Outcome of its own. Likewise the Python variable
incomplete_file_size is only assigned when an incomplete file is seen, so a
read before the first assignment raises UnboundLocalError; the model keeps it
as an Option and records that read as an Outcome of its own.
-/

namespace KdumpCrash

/-- Remote command outputs seen by one poll of the inner loop: whether the
first find command (for a complete vmcore) printed anything, whether the
second find command (for an incomplete file) printed anything, and the size
reported by stat for the incomplete file. -/
structure PollEnv where
  completeStdout : Bool
  incompleteStdout : Bool
  incompleteSize : Nat
  deriving DecidableEq

/-- Classification of one poll, as the source computes it. -/
inductive ScanResult
  | complete
  | inProgress (size : Nat)
  | notFound
  deriving DecidableEq

/-- One poll of the inner loop, lines 388 to 407 of the source: the first
find command is issued; when its stdout is non empty the loop breaks at once.
Otherwise the second find command is issued; non empty stdout there means an
incomplete file whose size is read by stat. The second component counts the
find commands issued by the poll. -/
def scanOnce (env : PollEnv) : ScanResult × Nat :=
  if env.completeStdout then (ScanResult.complete, 1)
  else if env.incompleteStdout then (ScanResult.inProgress env.incompleteSize, 2)
  else (ScanResult.notFound, 2)

/-- Result of the whole try block of one poll: either the commands ran and
returned the given outputs, or one of them raised, which the source catches
and turns into system_disconnected = True plus a break. -/
inductive ScanCall
  | ok (env : PollEnv)
  | raise
  deriving DecidableEq

/-- Environment responses for one loop iteration. -/
structure Event where
  elapsed : Nat
  connectOk : Bool
  scan : ScanCall
  diagOk : Bool
  deriving DecidableEq

/-- Position in the control flow: at the outer loop condition with
system_disconnected = True, or inside the inner polling loop with the current
saved_dumpfile_size and retries values. -/
inductive Mode
  | connecting
  | polling (saved : Nat) (retries : Nat)
  deriving DecidableEq

/-- State threaded through the run: the control position, the value of the
Python local incomplete_file_size (none while still unassigned; it is never
reset, also not on reconnection), and how many diagnostics calls were made. -/
structure St where
  mode : Mode
  incompleteSz : Option Nat
  diagCalls : Nat
  deriving DecidableEq

/-- Terminal result of _check_kdump_result. success is a normal return; the
four named failures are the LisaException raises of the source;
unboundLocalError is the read of the unassigned incomplete_file_size local in
the dump timeout message; diagError is an uncaught exception escaping from a
diagnostics call; outOfEvents is the model artifact for an exhausted trace. -/
inductive Outcome
  | success
  | stalledIncomplete (sizeBytes : Nat)
  | noVmcoreFound
  | dumpTimeout (sizeBytes : Nat)
  | unboundLocalError
  | connectTimeout
  | diagError
  | outOfEvents
  deriving DecidableEq

/-- Final outcome together with the number of diagnostics calls made. -/
structure RunRes where
  outcome : Outcome
  diagCalls : Nat
  deriving DecidableEq

/-- One loop iteration. In connecting mode this is one outer iteration:
the loop condition reads the timer; past the deadline the loop exits and the
source calls get_console_log and raises the connect timeout; otherwise
try_connect either succeeds, entering the inner loop with
saved_dumpfile_size = 0 and retries = 0, or fails, upon which
check_initramfs runs and the loop continues. In polling mode this is one
inner iteration as in the source: a raised scan breaks back to the outer
loop; a complete find breaks out to a normal return; an incomplete find
updates the growth bookkeeping and can raise the stalled failure; an empty
poll bumps retries and can raise the not found failure; every iteration that
falls through compares the timer with the deadline before sleeping. -/
def step (maxRetries timeout : Nat) (st : St) (e : Event) : St ⊕ RunRes :=
  match st.mode with
  | Mode.connecting =>
      if e.elapsed < timeout then
        if e.connectOk then
          Sum.inl { st with mode := Mode.polling 0 0 }
        else
          if e.diagOk then
            Sum.inl { st with diagCalls := st.diagCalls + 1 }
          else
            Sum.inr ⟨Outcome.diagError, st.diagCalls + 1⟩
      else
        if e.diagOk then
          Sum.inr ⟨Outcome.connectTimeout, st.diagCalls + 1⟩
        else
          Sum.inr ⟨Outcome.diagError, st.diagCalls + 1⟩
  | Mode.polling saved retries =>
      match e.scan with
      | ScanCall.raise => Sum.inl { st with mode := Mode.connecting }
      | ScanCall.ok env =>
          match (scanOnce env).fst with
          | ScanResult.complete => Sum.inr ⟨Outcome.success, st.diagCalls⟩
          | ScanResult.inProgress size =>
              if size > saved then
                if e.elapsed > timeout then
                  if e.diagOk then
                    Sum.inr ⟨Outcome.dumpTimeout size, st.diagCalls + 1⟩
                  else
                    Sum.inr ⟨Outcome.diagError, st.diagCalls + 1⟩
                else
                  Sum.inl { st with mode := Mode.polling size 0,
                                    incompleteSz := some size }
              else
                if retries + 1 ≥ maxRetries then
                  if e.diagOk then
                    Sum.inr ⟨Outcome.stalledIncomplete size, st.diagCalls + 1⟩
                  else
                    Sum.inr ⟨Outcome.diagError, st.diagCalls + 1⟩
                else
                  if e.elapsed > timeout then
                    if e.diagOk then
                      Sum.inr ⟨Outcome.dumpTimeout size, st.diagCalls + 1⟩
                    else
                      Sum.inr ⟨Outcome.diagError, st.diagCalls + 1⟩
                  else
                    Sum.inl { st with mode := Mode.polling saved (retries + 1),
                                      incompleteSz := some size }
          | ScanResult.notFound =>
              if retries + 1 ≥ maxRetries then
                if e.diagOk then
                  Sum.inr ⟨Outcome.noVmcoreFound, st.diagCalls + 1⟩
                else
                  Sum.inr ⟨Outcome.diagError, st.diagCalls + 1⟩
              else
                if e.elapsed > timeout then
                  if e.diagOk then
                    match st.incompleteSz with
                    | some sz => Sum.inr ⟨Outcome.dumpTimeout sz, st.diagCalls + 1⟩
                    | none => Sum.inr ⟨Outcome.unboundLocalError, st.diagCalls + 1⟩
                  else
                    Sum.inr ⟨Outcome.diagError, st.diagCalls + 1⟩
                else
                  Sum.inl { st with mode := Mode.polling saved (retries + 1) }

/-- Run the loops over a trace of environment responses. -/
def runFrom (maxRetries timeout : Nat) : St → List Event → RunRes
  | st, [] => ⟨Outcome.outOfEvents, st.diagCalls⟩
  | st, e :: es =>
      match step maxRetries timeout st e with
      | Sum.inl st' => runFrom maxRetries timeout st' es
      | Sum.inr res => res

/-- Run a trace as long as every iteration continues, returning the state
reached, or none when some iteration terminates the run. -/
def stepsTo (maxRetries timeout : Nat) : St → List Event → Option St
  | st, [] => some st
  | st, e :: es =>
      match step maxRetries timeout st e with
      | Sum.inl st' => stepsTo maxRetries timeout st' es
      | Sum.inr _ => none

/-- State at entry of _check_kdump_result: system_disconnected = True, the
incomplete_file_size local unassigned, no diagnostics call made yet. -/
def initSt : St := ⟨Mode.connecting, none, 0⟩

/-- The max_retries local of the source, line 382. -/
def maxRetriesCode : Nat := 10

/-- The timeout_of_dump_crash class attribute, line 52. -/
def timeoutOfDumpCrash : Nat := 800

/-- The whole method on a trace, with the constants of the source. -/
def checkKdumpResult (events : List Event) : RunRes :=
  runFrom maxRetriesCode timeoutOfDumpCrash initSt events

/-- Trace element for one outer iteration: a connect attempt. -/
def connEvent (t : Nat) (ok : Bool) : Event := ⟨t, ok, ScanCall.raise, true⟩

/-- Trace element for one inner iteration: a poll with given outputs. -/
def pollEvent (t : Nat) (env : PollEnv) : Event := ⟨t, false, ScanCall.ok env, true⟩

/-- Poll outputs when neither find command prints anything. -/
def noneEnv : PollEnv := ⟨false, false, 0⟩

/-- Poll outputs when the first find command finds a complete vmcore. -/
def completeEnv : PollEnv := ⟨true, false, 0⟩

/-- Poll outputs when only the incomplete file is found, with its size. -/
def ipEnv (size : Nat) : PollEnv := ⟨false, true, size⟩

/-- A run of polls that all see only the incomplete file, one per size. -/
def ipPolls (sizes : List Nat) : List Event :=
  sizes.map (fun s => pollEvent 0 (ipEnv s))

/-- Trace with a Complete observation pending behind ten empty polls. -/
def c1Trace : List Event :=
  (connEvent 0 true :: List.replicate 10 (pollEvent 1 noneEnv))
    ++ [pollEvent 2 completeEnv]

/-- Trace of three equal sized InProgress polls after a reconnect. -/
def c2Trace : List Event :=
  connEvent 0 true :: List.replicate 3 (pollEvent 1 (ipEnv 10485760))

/-- Trace of ten consecutive empty polls after a reconnect. -/
def c4Trace : List Event :=
  connEvent 0 true :: List.replicate 10 (pollEvent 1 noneEnv)

/-- Trace of one failed connect attempt whose check_initramfs call raises. -/
def c5TraceFail : List Event := [⟨5, false, ScanCall.raise, false⟩]

/-- The same trace with the check_initramfs call succeeding. -/
def c5TraceOk : List Event := [⟨5, false, ScanCall.raise, true⟩]

/-- Scenario D trace: reconnect, one growing poll, a scan that raises, one
failed reconnect attempt, a second reconnect, then a complete find. -/
def c6Scenario : List Event :=
  [connEvent 0 true, pollEvent 1 (ipEnv 5), ⟨2, false, ScanCall.raise, true⟩,
   connEvent 3 false, connEvent 4 true, pollEvent 5 completeEnv]

/-- Trace where no reconnect succeeds and the first diagnostics call
raises. -/
def c7Trace : List Event :=
  [⟨5, false, ScanCall.raise, false⟩, ⟨801, false, ScanCall.raise, true⟩]

/-- Trace reaching the in loop deadline check on a first poll that saw
neither a vmcore nor an incomplete file. -/
def c10Trace : List Event :=
  [connEvent 0 true, ⟨801, false, ScanCall.ok noneEnv, true⟩]

theorem runFrom_nil (maxR timeout : Nat) (st : St) :
    runFrom maxR timeout st [] = ⟨Outcome.outOfEvents, st.diagCalls⟩ := rfl

theorem runFrom_cons (maxR timeout : Nat) (st : St) (e : Event) (es : List Event) :
    runFrom maxR timeout st (e :: es) =
      match step maxR timeout st e with
      | Sum.inl st' => runFrom maxR timeout st' es
      | Sum.inr res => res := rfl

theorem stepsTo_cons (maxR timeout : Nat) (st : St) (e : Event) (es : List Event) :
    stepsTo maxR timeout st (e :: es) =
      match step maxR timeout st e with
      | Sum.inl st' => stepsTo maxR timeout st' es
      | Sum.inr _ => none := rfl

theorem runFrom_append (maxR timeout : Nat) :
    ∀ (es1 : List Event) (st st' : St),
      stepsTo maxR timeout st es1 = some st' →
      ∀ es2 : List Event,
        runFrom maxR timeout st (es1 ++ es2) = runFrom maxR timeout st' es2 := by
  intro es1
  induction es1 with
  | nil =>
      intro st st' h es2
      simp only [stepsTo, Option.some.injEq] at h
      subst h
      rfl
  | cons e es ih =>
      intro st st' h es2
      rw [stepsTo_cons] at h
      rw [List.cons_append, runFrom_cons]
      cases hstep : step maxR timeout st e with
      | inl st1 =>
          rw [hstep] at h
          simp only at h
          exact ih st1 st' h es2
      | inr res =>
          rw [hstep] at h
          simp at h

theorem step_conn_retry (maxR timeout : Nat) (st : St) (e : Event)
    (hm : st.mode = Mode.connecting) (ht : e.elapsed < timeout)
    (hc : e.connectOk = false) (hd : e.diagOk = true) :
    step maxR timeout st e = Sum.inl { st with diagCalls := st.diagCalls + 1 } := by
  obtain ⟨m, inc, d⟩ := st
  simp only at hm
  subst hm
  simp [step, ht, hc, hd]

theorem step_conn_enter (maxR timeout : Nat) (st : St) (e : Event)
    (hm : st.mode = Mode.connecting) (ht : e.elapsed < timeout)
    (hc : e.connectOk = true) :
    step maxR timeout st e = Sum.inl { st with mode := Mode.polling 0 0 } := by
  obtain ⟨m, inc, d⟩ := st
  simp only at hm
  subst hm
  simp [step, ht, hc]

theorem step_conn_deadline (maxR timeout : Nat) (st : St) (e : Event)
    (hm : st.mode = Mode.connecting) (ht : timeout ≤ e.elapsed)
    (hd : e.diagOk = true) :
    step maxR timeout st e = Sum.inr ⟨Outcome.connectTimeout, st.diagCalls + 1⟩ := by
  obtain ⟨m, inc, d⟩ := st
  simp only at hm
  subst hm
  have ht2 : ¬ (e.elapsed < timeout) := by omega
  simp [step, ht2, hd]

theorem step_poll_raise (maxR timeout : Nat) (st : St) (e : Event)
    (saved r : Nat) (hm : st.mode = Mode.polling saved r)
    (hs : e.scan = ScanCall.raise) :
    step maxR timeout st e = Sum.inl { st with mode := Mode.connecting } := by
  obtain ⟨m, inc, d⟩ := st
  simp only at hm
  subst hm
  simp [step, hs]

theorem step_poll_complete (maxR timeout : Nat) (st : St) (e : Event)
    (saved r : Nat) (env : PollEnv) (hm : st.mode = Mode.polling saved r)
    (hs : e.scan = ScanCall.ok env) (hc : env.completeStdout = true) :
    step maxR timeout st e = Sum.inr ⟨Outcome.success, st.diagCalls⟩ := by
  obtain ⟨m, inc, d⟩ := st
  simp only at hm
  subst hm
  simp [step, hs, scanOnce, hc]

theorem step_poll_none_cont (maxR timeout saved r : Nat) (inc : Option Nat)
    (d t : Nat) (hr : r + 1 < maxR) (ht : t ≤ timeout) :
    step maxR timeout ⟨Mode.polling saved r, inc, d⟩ (pollEvent t noneEnv)
      = Sum.inl ⟨Mode.polling saved (r + 1), inc, d⟩ := by
  have h1 : ¬ (r + 1 ≥ maxR) := by omega
  have h2 : ¬ (t > timeout) := by omega
  simp [step, pollEvent, noneEnv, scanOnce, h1, h2]

theorem step_poll_none_raise (maxR timeout saved r : Nat) (inc : Option Nat)
    (d t : Nat) (hr : r + 1 ≥ maxR) :
    step maxR timeout ⟨Mode.polling saved r, inc, d⟩ (pollEvent t noneEnv)
      = Sum.inr ⟨Outcome.noVmcoreFound, d + 1⟩ := by
  simp [step, pollEvent, noneEnv, scanOnce, hr]

theorem step_poll_grow (maxR timeout saved r sz : Nat) (inc : Option Nat)
    (d t : Nat) (hg : sz > saved) (ht : t ≤ timeout) :
    step maxR timeout ⟨Mode.polling saved r, inc, d⟩ (pollEvent t (ipEnv sz))
      = Sum.inl ⟨Mode.polling sz 0, some sz, d⟩ := by
  have h2 : ¬ (t > timeout) := by omega
  simp [step, pollEvent, ipEnv, scanOnce, hg, h2]

theorem step_poll_nogrow_cont (maxR timeout saved r sz : Nat) (inc : Option Nat)
    (d t : Nat) (hg : sz ≤ saved) (hr : r + 1 < maxR) (ht : t ≤ timeout) :
    step maxR timeout ⟨Mode.polling saved r, inc, d⟩ (pollEvent t (ipEnv sz))
      = Sum.inl ⟨Mode.polling saved (r + 1), some sz, d⟩ := by
  have h0 : ¬ (sz > saved) := by omega
  have h1 : ¬ (r + 1 ≥ maxR) := by omega
  have h2 : ¬ (t > timeout) := by omega
  simp [step, pollEvent, ipEnv, scanOnce, h0, h1, h2]

theorem step_poll_nogrow_raise (maxR timeout saved r sz : Nat) (inc : Option Nat)
    (d t : Nat) (hg : sz ≤ saved) (hr : r + 1 ≥ maxR) :
    step maxR timeout ⟨Mode.polling saved r, inc, d⟩ (pollEvent t (ipEnv sz))
      = Sum.inr ⟨Outcome.stalledIncomplete sz, d + 1⟩ := by
  have h0 : ¬ (sz > saved) := by omega
  simp [step, pollEvent, ipEnv, scanOnce, h0, hr]

theorem nonePolls_steps (maxR timeout : Nat) :
    ∀ (k saved r : Nat) (inc : Option Nat) (d : Nat),
      r + k < maxR →
      stepsTo maxR timeout ⟨Mode.polling saved r, inc, d⟩
          (List.replicate k (pollEvent 0 noneEnv))
        = some ⟨Mode.polling saved (r + k), inc, d⟩ := by
  intro k
  induction k with
  | zero => intro saved r inc d h; simp [stepsTo]
  | succ n ih =>
      intro saved r inc d h
      rw [List.replicate_succ, stepsTo_cons,
          step_poll_none_cont maxR timeout saved r inc d 0 (by omega) (Nat.zero_le _)]
      show stepsTo maxR timeout ⟨Mode.polling saved (r + 1), inc, d⟩
          (List.replicate n (pollEvent 0 noneEnv))
        = some ⟨Mode.polling saved (r + (n + 1)), inc, d⟩
      rw [ih saved (r + 1) inc d (by omega)]
      have h2 : r + 1 + n = r + (n + 1) := by omega
      rw [h2]

theorem ipPolls_stall (maxR timeout : Nat) :
    ∀ (sizes : List Nat) (lastSz saved r : Nat) (inc : Option Nat) (d : Nat)
      (rest : List Event),
      sizes.getLast? = some lastSz →
      (∀ s ∈ sizes, s ≤ saved) →
      r + sizes.length = maxR →
      (runFrom maxR timeout ⟨Mode.polling saved r, inc, d⟩
          (ipPolls sizes ++ rest)).outcome
        = Outcome.stalledIncomplete lastSz := by
  intro sizes
  induction sizes with
  | nil => intro lastSz saved r inc d rest h _ _; simp at h
  | cons s tl ih =>
      intro lastSz saved r inc d rest hlast hle hlen
      have hs : s ≤ saved := hle s (List.mem_cons_self s tl)
      cases tl with
      | nil =>
          have hr : r + 1 ≥ maxR := by
            simp only [List.length_cons, List.length_nil] at hlen
            omega
          have hlast2 : lastSz = s := by
            simp only [List.getLast?_singleton, Option.some.injEq] at hlast
            omega
          rw [hlast2,
              show ipPolls [s] = [pollEvent 0 (ipEnv s)] from rfl,
              List.cons_append, List.nil_append, runFrom_cons,
              step_poll_nogrow_raise maxR timeout saved r s inc d 0 hs hr]
      | cons s2 tl2 =>
          have hr : r + 1 < maxR := by
            simp only [List.length_cons] at hlen
            omega
          have hlast2 : (s2 :: tl2).getLast? = some lastSz := by
            rw [List.getLast?_cons_cons] at hlast
            exact hlast
          rw [show ipPolls (s :: s2 :: tl2)
                = pollEvent 0 (ipEnv s) :: ipPolls (s2 :: tl2) from rfl,
              List.cons_append, runFrom_cons,
              step_poll_nogrow_cont maxR timeout saved r s inc d 0 hs hr
                (Nat.zero_le _)]

          show (runFrom maxR timeout ⟨Mode.polling saved (r + 1), some s, d⟩
              (ipPolls (s2 :: tl2) ++ rest)).outcome
            = Outcome.stalledIncomplete lastSz
          refine ih lastSz saved (r + 1) (some s) d rest hlast2 ?_ ?_
          · intro x hx
            exact hle x (List.mem_cons_of_mem s hx)
          · simp only [List.length_cons] at hlen ⊢
            omega

theorem connectFails_steps (maxR timeout : Nat) :
    ∀ (es : List Event) (st : St), st.mode = Mode.connecting →
      (∀ e ∈ es, e.connectOk = false ∧ e.diagOk = true ∧ e.elapsed < timeout) →
      stepsTo maxR timeout st es
        = some ⟨Mode.connecting, st.incompleteSz, st.diagCalls + es.length⟩ := by
  intro es
  induction es with
  | nil =>
      intro st hm _
      obtain ⟨m, inc, d⟩ := st
      simp only at hm
      subst hm
      simp [stepsTo]
  | cons e es ih =>
      intro st hm hall
      obtain ⟨hc, hd, ht⟩ := hall e (List.mem_cons_self e es)
      rw [stepsTo_cons, step_conn_retry maxR timeout st e hm ht hc hd]
      show stepsTo maxR timeout { st with diagCalls := st.diagCalls + 1 } es
        = some ⟨Mode.connecting, st.incompleteSz, st.diagCalls + (es.length + 1)⟩
      rw [ih { st with diagCalls := st.diagCalls + 1 }
            (by obtain ⟨m, inc, d⟩ := st; simp only at hm; subst hm; rfl)
            (fun x hx => hall x (List.mem_cons_of_mem e hx))]
      obtain ⟨m, inc, d⟩ := st
      simp only
      have h2 : d + 1 + es.length = d + (es.length + 1) := by omega
      rw [h2]

/-- C1 (counterexample): a trace that reconnects at once, then sees ten empty
polls, then a poll finding a complete vmcore, all well before the deadline.
The tenth empty poll drives the shared retries counter to max_retries and the
method raises the no vmcore failure, so the pending Complete observation does
not yield Success. -/
theorem c1_counterexample :
    (∃ e ∈ c1Trace, e.scan = ScanCall.ok completeEnv ∧
        e.elapsed < timeoutOfDumpCrash) ∧
    (checkKdumpResult c1Trace).outcome = Outcome.noVmcoreFound ∧
    Outcome.noVmcoreFound ≠ Outcome.success := by decide

/-- C1 (amended): whenever the run reaches the polling loop without any
earlier iteration having terminated it, a poll whose first find command
prints a complete vmcore makes _check_kdump_result return normally, whatever
None or InProgress observations, scan errors and failed reconnect attempts
came before, and regardless of the incomplete sibling file field of that
poll. -/
theorem c1_complete_reached_success (maxR timeout : Nat) (es rest : List Event)
    (st : St) (saved r : Nat) (e : Event) (env : PollEnv)
    (hsteps : stepsTo maxR timeout initSt es = some st)
    (hmode : st.mode = Mode.polling saved r)
    (hscan : e.scan = ScanCall.ok env)
    (hcomplete : env.completeStdout = true) :
    (runFrom maxR timeout initSt (es ++ e :: rest)).outcome = Outcome.success := by
  rw [runFrom_append maxR timeout es initSt st hsteps (e :: rest), runFrom_cons,
      step_poll_complete maxR timeout st e saved r env hmode hscan hcomplete]

/-- C1 witness: after one successful reconnect, a complete find gives
Success. -/
theorem c1_complete_reached_success_witness :
    (runFrom 10 800 initSt
        ([connEvent 0 true] ++ pollEvent 1 completeEnv :: [])).outcome
      = Outcome.success :=
  c1_complete_reached_success 10 800 [connEvent 0 true] []
    ⟨Mode.polling 0 0, none, 0⟩ 0 0 (pollEvent 1 completeEnv) completeEnv
    (by decide) rfl rfl rfl

/-- C2 (counterexample): with a stall threshold of 3, the observation
sequence InProgress(10MB), InProgress(10MB), InProgress(10MB) does not give
the stalled verdict: the first of the three polls records growth over the
initial saved size 0 and resets the counter, so the run is still polling
when the trace ends. -/
theorem c2_counterexample :
    (runFrom 3 timeoutOfDumpCrash initSt c2Trace).outcome ≠
        Outcome.stalledIncomplete 10485760 ∧
    (runFrom 3 timeoutOfDumpCrash initSt c2Trace).outcome
        = Outcome.outOfEvents := by decide

/-- C2 (amended): after a first InProgress poll that records a positive size,
max_retries further InProgress polls whose sizes never exceed that recorded
size end the session with the stalled failure, reporting exactly the size
observed by the last poll. -/
theorem c2_stall_after_growth (maxR timeout s0 lastSz : Nat) (sizes : List Nat)
    (rest : List Event) (htime : 0 < timeout) (h0 : 0 < s0)
    (hlast : sizes.getLast? = some lastSz) (hsz : ∀ s ∈ sizes, s ≤ s0)
    (hlen : sizes.length = maxR) :
    (runFrom maxR timeout initSt
        (connEvent 0 true :: pollEvent 0 (ipEnv s0) ::
          (ipPolls sizes ++ rest))).outcome
      = Outcome.stalledIncomplete lastSz := by
  rw [runFrom_cons,
      step_conn_enter maxR timeout initSt (connEvent 0 true) rfl htime rfl]
  show (runFrom maxR timeout ⟨Mode.polling 0 0, none, 0⟩
      (pollEvent 0 (ipEnv s0) :: (ipPolls sizes ++ rest))).outcome = _
  rw [runFrom_cons, step_poll_grow maxR timeout 0 0 s0 none 0 0 h0 (Nat.zero_le _)]
  show (runFrom maxR timeout ⟨Mode.polling s0 0, some s0, 0⟩
      (ipPolls sizes ++ rest)).outcome = _
  exact ipPolls_stall maxR timeout sizes lastSz s0 0 (some s0) 0 rest hlast hsz
    (by omega)

/-- C2 witness: with threshold 3, a growth poll at 10MB followed by three
non growing 10MB polls gives Stalled(10MB). -/
theorem c2_stall_after_growth_witness :
    (runFrom 3 800 initSt
        (connEvent 0 true :: pollEvent 0 (ipEnv 10485760) ::
          (ipPolls [10485760, 10485760, 10485760] ++ []))).outcome
      = Outcome.stalledIncomplete 10485760 :=
  c2_stall_after_growth 3 800 10485760 10485760 [10485760, 10485760, 10485760]
    [] (by decide) (by decide) (by decide) (by decide) (by decide)

/-- C3 (counterexample): an empty poll does not reset the counter: from
retries = 7 the poll moves the state to retries = 8, and 8 is not 0. -/
theorem c3_counterexample :
    step maxRetriesCode timeoutOfDumpCrash ⟨Mode.polling 5 7, some 5, 0⟩
        (pollEvent 1 noneEnv)
      = Sum.inl ⟨Mode.polling 5 8, some 5, 0⟩ ∧ (8 : Nat) ≠ 0 := by decide

/-- C3 (amended): a None observation increments the shared retries counter
and leaves the recorded size alone; the counter is reset to zero only by an
InProgress observation whose size grows past the recorded one, or on re
entering the polling loop after a reconnection. -/
theorem c3_none_increments (maxR timeout saved r sz : Nat) (inc : Option Nat)
    (d t : Nat) (hr : r + 1 < maxR) (ht : t < timeout) (hg : sz > saved) :
    step maxR timeout ⟨Mode.polling saved r, inc, d⟩ (pollEvent t noneEnv)
      = Sum.inl ⟨Mode.polling saved (r + 1), inc, d⟩ ∧
    step maxR timeout ⟨Mode.polling saved r, inc, d⟩ (pollEvent t (ipEnv sz))
      = Sum.inl ⟨Mode.polling sz 0, some sz, d⟩ ∧
    step maxR timeout ⟨Mode.connecting, inc, d⟩ (connEvent t true)
      = Sum.inl ⟨Mode.polling 0 0, inc, d⟩ :=
  ⟨step_poll_none_cont maxR timeout saved r inc d t hr (Nat.le_of_lt ht),
   step_poll_grow maxR timeout saved r sz inc d t hg (Nat.le_of_lt ht),
   step_conn_enter maxR timeout ⟨Mode.connecting, inc, d⟩ (connEvent t true)
     rfl ht rfl⟩

/-- C3 witness: at retries 7 with recorded size 5, a None poll moves to
retries 8, a grown InProgress poll of size 6 resets to 0, and a reconnect
enters the loop at retries 0. -/
theorem c3_none_increments_witness :
    step 10 800 ⟨Mode.polling 5 7, some 5, 1⟩ (pollEvent 1 noneEnv)
      = Sum.inl ⟨Mode.polling 5 8, some 5, 1⟩ ∧
    step 10 800 ⟨Mode.polling 5 7, some 5, 1⟩ (pollEvent 1 (ipEnv 6))
      = Sum.inl ⟨Mode.polling 6 0, some 6, 1⟩ ∧
    step 10 800 ⟨Mode.connecting, some 5, 1⟩ (connEvent 1 true)
      = Sum.inl ⟨Mode.polling 0 0, some 5, 1⟩ :=
  c3_none_increments 10 800 5 7 6 (some 5) 1 1 (by decide) (by decide)
    (by decide)

/-- C4 (counterexample): ten consecutive None observations, every one well
inside the deadline, terminate the session with the no vmcore failure, so a
None poll can produce a terminal failure without any deadline exhaustion and
without any InProgress stall. -/
theorem c4_counterexample :
    (∀ e ∈ c4Trace, e.elapsed < timeoutOfDumpCrash) ∧
    (checkKdumpResult c4Trace).outcome = Outcome.noVmcoreFound ∧
    Outcome.noVmcoreFound ≠ Outcome.success := by decide

/-- C4 (amended): None observations share the retries counter with non
growing InProgress observations: fewer than max_retries consecutive None
polls inside the deadline leave the session polling, while max_retries
consecutive None polls raise the no vmcore failure. -/
theorem c4_none_polls_threshold (maxR timeout k : Nat) (htime : 0 < timeout)
    (hk : k < maxR) :
    (runFrom maxR timeout initSt
        (connEvent 0 true :: List.replicate k (pollEvent 0 noneEnv))).outcome
      = Outcome.outOfEvents ∧
    (runFrom maxR timeout initSt
        (connEvent 0 true :: List.replicate maxR (pollEvent 0 noneEnv))).outcome
      = Outcome.noVmcoreFound := by
  constructor
  · rw [runFrom_cons,
        step_conn_enter maxR timeout initSt (connEvent 0 true) rfl htime rfl]
    show (runFrom maxR timeout ⟨Mode.polling 0 0, none, 0⟩
        (List.replicate k (pollEvent 0 noneEnv))).outcome = _
    have h := nonePolls_steps maxR timeout k 0 0 none 0 (by omega)
    have h2 := runFrom_append maxR timeout
        (List.replicate k (pollEvent 0 noneEnv))
        ⟨Mode.polling 0 0, none, 0⟩ ⟨Mode.polling 0 (0 + k), none, 0⟩ h []
    rw [List.append_nil] at h2
    rw [h2, runFrom_nil]
  · obtain ⟨m, hm⟩ : ∃ m, maxR = m + 1 := ⟨maxR - 1, by omega⟩
    subst hm
    rw [runFrom_cons,
        step_conn_enter (m + 1) timeout initSt (connEvent 0 true) rfl htime rfl]
    show (runFrom (m + 1) timeout ⟨Mode.polling 0 0, none, 0⟩
        (List.replicate (m + 1) (pollEvent 0 noneEnv))).outcome = _
    rw [List.replicate_succ']
    have h := nonePolls_steps (m + 1) timeout m 0 0 none 0 (by omega)
    rw [runFrom_append (m + 1) timeout (List.replicate m (pollEvent 0 noneEnv))
          ⟨Mode.polling 0 0, none, 0⟩ ⟨Mode.polling 0 (0 + m), none, 0⟩ h
          [pollEvent 0 noneEnv],
        runFrom_cons,
        step_poll_none_raise (m + 1) timeout 0 (0 + m) none 0 0 (by omega)]

/-- C4 witness: with the source constants, three None polls keep the session
polling and ten None polls raise the no vmcore failure. -/
theorem c4_none_polls_threshold_witness :
    (runFrom 10 800 initSt
        (connEvent 0 true :: List.replicate 3 (pollEvent 0 noneEnv))).outcome
      = Outcome.outOfEvents ∧
    (runFrom 10 800 initSt
        (connEvent 0 true :: List.replicate 10 (pollEvent 0 noneEnv))).outcome
      = Outcome.noVmcoreFound :=
  c4_none_polls_threshold 10 800 3 (by decide) (by decide)

/-- C5 (counterexample): the check_initramfs call made after a failed
reconnect attempt sits outside every try block of the source, so when it
raises the exception escapes _check_kdump_result: the run ends in a
diagnostics error, and the very same trace with a succeeding diagnostics
call ends differently, so the verdict is not independent of diagnostics
failures. -/
theorem c5_counterexample :
    (checkKdumpResult c5TraceFail).outcome = Outcome.diagError ∧
    (checkKdumpResult c5TraceFail).outcome
      ≠ (checkKdumpResult c5TraceOk).outcome := by decide

/-- C5 (amended): a raising diagnostics call is not caught by the method: in
the reconnect loop, whether the attempt failed inside the deadline or the
deadline was found exhausted, a failing serial console call turns the run
into a propagated diagnostics error that replaces the verdict. -/
theorem c5_diag_propagates (maxR timeout : Nat) (st : St) (e : Event)
    (hm : st.mode = Mode.connecting) (hc : e.connectOk = false)
    (hd : e.diagOk = false) :
    step maxR timeout st e = Sum.inr ⟨Outcome.diagError, st.diagCalls + 1⟩ := by
  obtain ⟨m, inc, d⟩ := st
  simp only at hm
  subst hm
  by_cases ht : e.elapsed < timeout
  · simp [step, ht, hc, hd]
  · simp [step, ht, hd]

/-- C5 witness: a failed connect attempt with a raising check_initramfs ends
the run with the diagnostics error. -/
theorem c5_diag_propagates_witness :
    step 10 800 ⟨Mode.connecting, some 7, 2⟩ ⟨5, false, ScanCall.raise, false⟩
      = Sum.inr ⟨Outcome.diagError, 3⟩ :=
  c5_diag_propagates 10 800 ⟨Mode.connecting, some 7, 2⟩
    ⟨5, false, ScanCall.raise, false⟩ rfl rfl rfl

/-- C6: a scan that raises mid loop does not record a None poll and does not
fail: the run continues exactly as if the reconnect loop were re entered
with the retries bookkeeping abandoned; and on the scenario D trace, where a
scan raises and a later scan after reconnection finds a complete vmcore
inside the deadline, the session ends in Success. -/
theorem c6_scan_error_reenters_reconnect (maxR timeout : Nat) (st : St)
    (saved r : Nat) (e : Event) (rest : List Event)
    (hm : st.mode = Mode.polling saved r) (hs : e.scan = ScanCall.raise) :
    runFrom maxR timeout st (e :: rest)
      = runFrom maxR timeout ⟨Mode.connecting, st.incompleteSz, st.diagCalls⟩
          rest ∧
    (checkKdumpResult c6Scenario).outcome = Outcome.success := by
  constructor
  · rw [runFrom_cons, step_poll_raise maxR timeout st e saved r hm hs]
  · decide

/-- C6 witness: from a polling state with retries 2, a raising scan resumes
as a reconnect loop, and the scenario D trace ends in Success. -/
theorem c6_scan_error_reenters_reconnect_witness :
    runFrom 10 800 ⟨Mode.polling 5 2, some 5, 1⟩
        (⟨2, false, ScanCall.raise, true⟩ ::
          [connEvent 3 true, pollEvent 4 completeEnv])
      = runFrom 10 800 ⟨Mode.connecting, some 5, 1⟩
          [connEvent 3 true, pollEvent 4 completeEnv] ∧
    (checkKdumpResult c6Scenario).outcome = Outcome.success :=
  c6_scan_error_reenters_reconnect 10 800 ⟨Mode.polling 5 2, some 5, 1⟩ 5 2
    ⟨2, false, ScanCall.raise, true⟩
    [connEvent 3 true, pollEvent 4 completeEnv] rfl rfl

/-- C7 (counterexample): a run in which no reconnection attempt ever
succeeds need not end in the connect timeout verdict: when the
check_initramfs call of a failed attempt raises, the run ends in a
propagated diagnostics error instead. -/
theorem c7_counterexample :
    (∀ e ∈ c7Trace, e.connectOk = false) ∧
    (checkKdumpResult c7Trace).outcome = Outcome.diagError ∧
    Outcome.diagError ≠ Outcome.connectTimeout := by decide

/-- C7 (amended): when every reconnect attempt inside the deadline fails
with a succeeding check_initramfs call, and the next timer reading meets the
deadline with a succeeding get_console_log call, the method raises the
connect timeout failure and the diagnostics collector has been invoked at
least once, namely once per failed attempt plus once at the exit. -/
theorem c7_connect_timeout (maxR timeout : Nat) (es : List Event) (e : Event)
    (rest : List Event)
    (hes : ∀ x ∈ es, x.connectOk = false ∧ x.diagOk = true ∧
        x.elapsed < timeout)
    (hd : e.diagOk = true) (ht : timeout ≤ e.elapsed) :
    runFrom maxR timeout initSt (es ++ e :: rest)
      = ⟨Outcome.connectTimeout, es.length + 1⟩ ∧
    1 ≤ es.length + 1 := by
  refine ⟨?_, by omega⟩
  have h := connectFails_steps maxR timeout es initSt rfl hes
  rw [runFrom_append maxR timeout es initSt
        ⟨Mode.connecting, initSt.incompleteSz, initSt.diagCalls + es.length⟩ h
        (e :: rest),
      runFrom_cons,
      step_conn_deadline maxR timeout
        ⟨Mode.connecting, initSt.incompleteSz, initSt.diagCalls + es.length⟩ e
        rfl ht hd]
  show (⟨Outcome.connectTimeout, 0 + es.length + 1⟩ : RunRes) = _
  rw [Nat.zero_add]

/-- C7 witness: two failed attempts then an exhausted deadline give the
connect timeout with three diagnostics calls. -/
theorem c7_connect_timeout_witness :
    runFrom 10 800 initSt
        ([connEvent 1 false, connEvent 2 false] ++ connEvent 801 false :: [])
      = ⟨Outcome.connectTimeout, 3⟩ ∧
    1 ≤ (2 : Nat) + 1 :=
  c7_connect_timeout 10 800 [connEvent 1 false, connEvent 2 false]
    (connEvent 801 false) [] (by decide) (by decide) (by decide)

/-- C8: the deadline comparison governs every continuing iteration: an outer
iteration that continues the run saw a timer reading strictly below the
deadline, and an inner iteration that stays in the polling loop saw a timer
reading at most the deadline; hence only a last iteration of a loop can run
past the deadline. -/
theorem c8_deadline_every_iteration (maxR timeout : Nat) (st st' : St)
    (e : Event) (s r s2 r2 : Nat)
    (h : step maxR timeout st e = Sum.inl st') :
    (st.mode = Mode.connecting → e.elapsed < timeout) ∧
    (st.mode = Mode.polling s r → st'.mode = Mode.polling s2 r2 →
      e.elapsed ≤ timeout) := by
  obtain ⟨t, c, sc, dg⟩ := e
  obtain ⟨m, inc, d⟩ := st
  cases m with
  | connecting =>
      refine ⟨fun _ => ?_, fun hpm _ => Mode.noConfusion hpm⟩
      by_cases ht : t < timeout
      · exact ht
      · exfalso
        cases dg <;> simp [step, ht] at h
  | polling sv rv =>
      refine ⟨fun hcm => Mode.noConfusion hcm, fun hpm hpm' => ?_⟩
      by_cases ht : t ≤ timeout
      · exact ht
      · exfalso
        have ht2 : timeout < t := by omega
        cases sc with
        | raise =>
            simp only [step] at h
            simp only [Sum.inl.injEq] at h
            rw [h.symm] at hpm'
            exact Mode.noConfusion hpm'
        | ok env =>
            rcases env with ⟨cs, is, isz⟩
            cases inc <;> cases dg <;> cases cs <;> cases is <;>
              by_cases hg : isz > sv <;>
              by_cases hrr : rv + 1 ≥ maxR <;>
              simp [step, scanOnce, ht2, hg, hrr] at h

/-- C8 witness: the first reconnect iteration of a fresh run continues only
with a timer reading below the deadline. -/
theorem c8_deadline_every_iteration_witness :
    (initSt.mode = Mode.connecting → (connEvent 0 true).elapsed < 800) ∧
    (initSt.mode = Mode.polling 1 2 →
      (St.mk (Mode.polling 0 0) none 0).mode = Mode.polling 3 4 →
      (connEvent 0 true).elapsed ≤ 800) :=
  c8_deadline_every_iteration 10 800 initSt ⟨Mode.polling 0 0, none, 0⟩
    (connEvent 0 true) 1 2 3 4 (by decide)

/-- C9: when the first find command prints a complete vmcore the poll is
classified Complete after exactly one find command, so the in progress
lookup is never issued and the poll is never classified InProgress, also
when an incomplete sibling file is present. -/
theorem c9_complete_check_first (env : PollEnv)
    (h : env.completeStdout = true) :
    scanOnce env = (ScanResult.complete, 1) := by
  simp [scanOnce, h]

/-- C9 witness: with both a complete vmcore and an incomplete sibling file
present, the poll reports Complete with a single find command issued. -/
theorem c9_complete_check_first_witness :
    scanOnce ⟨true, true, 123⟩ = (ScanResult.complete, 1) :=
  c9_complete_check_first ⟨true, true, 123⟩ rfl

/-- C10 (code_bug): the deadline branch of the polling loop can be reached
before any InProgress observation: a first poll that sees neither a vmcore
nor an incomplete file, taken when the timer already passed the deadline,
reaches the raise whose message reads the incomplete_file_size local while
it is still unassigned, so the method ends in UnboundLocalError instead of
the intended dump timeout failure. -/
theorem c10_uninitialized_size_read :
    (checkKdumpResult c10Trace).outcome = Outcome.unboundLocalError := by
  decide

end KdumpCrash
